import Mathlib

/-!
Shallow embedding of the KubeApi-Exporter facade (src/index.js).

The facade is an Express HTTP server exposing read-only list routes over a
Kubernetes control plane.  The pieces modelled here are the ones the
verified properties are about:

* `parseListParams` — the query normalizer (src/index.js lines 64-77);
* `sendList` — the success response shaper (lines 80-89);
* `sendError` — the error response shaper (lines 91-101);
* the per-route namespaced / cluster-wide dispatch (lines 103-313);
* `loadKubeConfigRobust` — the config loader (lines 14-46).

JavaScript truthiness is modelled explicitly: the source uses `x || y`
and `if (x)` on strings, numbers and JSON values, where `""`, `0`,
`null`, `undefined` and `false` are falsy.  Optional values (absent
object fields, `undefined`) are modelled as `Option`; `null` and
`undefined` are collapsed to `none` (both are falsy and both mean
"absent" to every consumer in this program).
-/

/-- JS truthiness of an optional string: `undefined`/`null` and `""` are
falsy, every other string is truthy. -/
def strTruthy : Option String → Bool
  | some s => s ≠ ""
  | none => false

/-- The JS idiom `x || null` (also `x || undefined`) applied to an
optional string: keeps a truthy (non-empty) string, collapses anything
falsy to `none`. -/
def jsOrNone : Option String → Option String
  | some s => if s = "" then none else some s
  | none => none

/-- A JS number as produced by `Number(string)`: either NaN or a numeric
value.  The facade never inspects the value, so rationals suffice. -/
inductive JsNum where
  | nan
  | num (q : ℚ)
deriving DecidableEq, Repr

/-- Incoming HTTP query parameters of a list route (each is a string when
present in the query string, absent otherwise). -/
structure Query where
  namespace? : Option String := none
  labelSelector : Option String := none
  fieldSelector : Option String := none
  limit : Option String := none
  continueTok : Option String := none
  resourceVersion : Option String := none
deriving DecidableEq, Repr

/-- The normalized parameter set handed to the Kubernetes client calls
(the object returned by `parseListParams` in src/index.js). -/
structure ListParams where
  namespace? : Option String
  labelSelector : Option String
  fieldSelector : Option String
  limit : Option JsNum
  continueTok : Option String
  resourceVersion : Option String
deriving DecidableEq, Repr

/-- `parseListParams` (src/index.js lines 64-77).  `toNum` is the host
primitive `Number` (string-to-number conversion), passed in as a
parameter because it is a JS builtin, not code of this repository:

```js
const namespace = req.query.namespace || null;
const labelSelector = req.query.labelSelector || undefined;
const fieldSelector = req.query.fieldSelector || undefined;
const limit = req.query.limit ? Number(req.query.limit) : undefined;
const _continue = req.query.continue || undefined;
const resourceVersion = req.query.resourceVersion || undefined;
```
-/
def parseListParams (toNum : String → JsNum) (q : Query) : ListParams where
  namespace? := jsOrNone q.namespace?
  labelSelector := jsOrNone q.labelSelector
  fieldSelector := jsOrNone q.fieldSelector
  limit := match q.limit with
    | some s => if s = "" then none else some (toNum s)
    | none => none
  continueTok := jsOrNone q.continueTok
  resourceVersion := jsOrNone q.resourceVersion

/-- The `metadata` object of a Kubernetes list response body; both fields
are optional strings. -/
structure ListMeta where
  continueTok : Option String := none
  resourceVersion : Option String := none
deriving DecidableEq, Repr

/-- A raw Kubernetes list response body: an optional `items` array and an
optional `metadata` object.  `α` is the raw resource-object type; the
facade treats the elements as opaque. -/
structure ListBody (α : Type) where
  items : Option (List α) := none
  metadata : Option ListMeta := none
deriving DecidableEq, Repr

/-- The raw client-library response: `apiResp.body` may be absent. -/
structure ApiResp (α : Type) where
  body : Option (ListBody α) := none
deriving DecidableEq, Repr

/-- The success envelope produced by `sendList`
(`{count, continue, resourceVersion, items}`). -/
structure Envelope (α : Type) where
  count : Nat
  continueTok : Option String
  resourceVersion : Option String
  items : List α
deriving DecidableEq, Repr

/-- `sendList` (src/index.js lines 80-89):

```js
const body = apiResp.body || {};
const items = body.items || [];
res.json({
  count: items.length,
  continue: body.metadata?.continue || null,
  resourceVersion: body.metadata?.resourceVersion || null,
  items
});
```

`apiResp.body || {}`: an object is always truthy, so `getD` with the
empty body.  `body.items || []`: a JS array (even `[]`) is truthy, so
`getD []` is exact.  `body.metadata?.continue || null` is optional
chaining followed by falsy coalescing, i.e. `jsOrNone ∘ Option.bind`. -/
def sendList {α : Type} (apiResp : ApiResp α) : Envelope α :=
  let body := apiResp.body.getD {}
  let items := body.items.getD []
  { count := items.length
    continueTok := jsOrNone (body.metadata.bind ListMeta.continueTok)
    resourceVersion := jsOrNone (body.metadata.bind ListMeta.resourceVersion)
    items := items }

/-- A JSON value, as parsed from an HTTP body by the client library. -/
inductive Json where
  | null
  | bool (b : Bool)
  | num (q : ℚ)
  | str (s : String)
  | arr (xs : List Json)
  | obj (fields : List (String × Json))

/-- JS truthiness of a JSON value: `null`, `false`, `0` and `""` are
falsy; arrays and objects (even empty) are truthy. -/
def Json.truthy : Json → Bool
  | .null => false
  | .bool b => b
  | .num q => q ≠ 0
  | .str s => s ≠ ""
  | .arr _ => true
  | .obj _ => true

/-- The embedded HTTP response carried by a client-library error
(`err.response`): optional status code and optional parsed body. -/
structure ErrResponse where
  statusCode : Option Nat := none
  body : Option Json := none

/-- A thrown error as seen by the route handlers' `catch (e)`:
optionally carries an embedded HTTP response and a message.  The whole
error may itself be `null`/`undefined` (hence the callers pass
`Option JsError`), which the source guards with `err?.`. -/
structure JsError where
  response : Option ErrResponse := none
  message : Option String := none

/-- An HTTP response of the facade: status code plus JSON-serialized
body.  `res.json(x)` in Express leaves the status at its default 200;
`res.status(s).json(x)` sets it to `s`. -/
structure HttpResponse (β : Type) where
  status : Nat
  body : β
deriving DecidableEq, Repr

/-- The error envelope `{error: "K8S_API_ERROR", status, details}`. -/
structure ErrorEnvelope where
  error : String
  status : Nat
  details : Json

/-- The JS idiom `err?.message || "Unknown error"`. -/
def errMessage (err : Option JsError) : String :=
  match err.bind JsError.message with
  | some m => if m = "" then "Unknown error" else m
  | none => "Unknown error"

/-- `sendError` (src/index.js lines 91-101):

```js
const status = err?.response?.statusCode || 500;
const details = err?.response?.body || {
  message: err?.message || "Unknown error"
};
res.status(status).json({ error: "K8S_API_ERROR", status, details });
```

`|| 500` fires when the chained lookup is `undefined` or the status
code is the falsy number 0; `|| {message: ...}` fires when the embedded
body is absent or a falsy JSON value. -/
def sendError (err : Option JsError) : HttpResponse ErrorEnvelope :=
  let status :=
    match (err.bind JsError.response).bind ErrResponse.statusCode with
    | some c => if c = 0 then 500 else c
    | none => 500
  let details :=
    match (err.bind JsError.response).bind ErrResponse.body with
    | some b => if b.truthy then b else Json.obj [("message", Json.str (errMessage err))]
    | none => Json.obj [("message", Json.str (errMessage err))]
  { status := status
    body := { error := "K8S_API_ERROR", status := status, details := details } }

/-- Body of the `/api/health` response. -/
structure HealthBody where
  ok : Bool
deriving DecidableEq, Repr

/-- The `/api/health` handler (src/index.js line 103):
`(req, res) => res.json({ ok: true })`.  It reads nothing — `σ` stands
for any ambient state (control-plane reachability included), which the
handler ignores, and `res.json` leaves Express's default status 200. -/
def handleHealth {σ : Type} (_s : σ) : HttpResponse HealthBody :=
  { status := 200, body := { ok := true } }

/-- The resource kinds served by the facade, one per list route. -/
inductive Kind where
  | namespaces | pods | services | nodes | deployments
  | daemonsets | statefulsets | ingresses | events
deriving DecidableEq, Repr

/-- Which upstream list variant a route handler invokes. -/
inductive CallTarget where
  | namespaced (ns : String)
  | clusterWide
deriving DecidableEq, Repr

/-- Whether the route for a kind has a namespaced list variant in the
source: `/api/namespaces` (`listNamespace`) and `/api/nodes`
(`listNode`) call a single cluster-scoped list unconditionally; the
other seven routes branch on `p.namespace`. -/
def hasNamespacedVariant : Kind → Bool
  | .namespaces => false
  | .nodes => false
  | _ => true

/-- The shared dispatch of the seven dual-variant routes
(src/index.js, e.g. lines 128-149 for `/api/pods`):
`if (p.namespace) { listNamespacedX(p.namespace, ...) } else
{ listXForAllNamespaces(...) }` — a JS truthiness test on the
normalized namespace. -/
def dispatchOnNamespace (p : ListParams) : CallTarget :=
  match p.namespace? with
  | some ns => if ns = "" then .clusterWide else .namespaced ns
  | none => .clusterWide

/-- Which upstream variant the route for `k` invokes on normalized
params `p` (src/index.js lines 106-313): `/api/namespaces` and
`/api/nodes` always call their cluster-scoped list; every other route
branches on `p.namespace`. -/
def routeCall (k : Kind) (p : ListParams) : CallTarget :=
  match k with
  | .namespaces => .clusterWide
  | .nodes => .clusterWide
  | _ => dispatchOnNamespace p

/-- A full list-route request step: normalize the query, then pick the
upstream call, as every route handler does. -/
def handleListRoute (k : Kind) (toNum : String → JsNum) (q : Query) : CallTarget :=
  routeCall k (parseListParams toNum q)

/-- The process environment variables the config loader reads. -/
structure Env where
  kubernetesServiceHost : Option String := none
  kubeconfig : Option String := none
  home : Option String := none
deriving DecidableEq, Repr

/-- Which strategy the config loader ends up using: in-cluster
service-account credentials (`kc.loadFromCluster()`), an explicit
kubeconfig file (`kc.loadFromFile(path)`), or the client library's
default discovery (`kc.loadFromDefault()`).  There is no error case:
every branch of the source returns a loaded `KubeConfig`. -/
inductive KubeConfigSource where
  | fromCluster
  | fromFile (path : String)
  | fromDefault
deriving DecidableEq, Repr

/-- The conventional service-account directory (src/index.js line 18). -/
def saDir : String := "/var/run/secrets/kubernetes.io/serviceaccount"

/-- The in-cluster test (src/index.js lines 19-22):
`!!process.env.KUBERNETES_SERVICE_HOST && fs.existsSync(saDir/token) &&
fs.existsSync(saDir/ca.crt)`.  `fs` models `fs.existsSync`. -/
def inClusterCheck (env : Env) (fs : String → Bool) : Bool :=
  strTruthy env.kubernetesServiceHost
    && fs (saDir ++ "/token") && fs (saDir ++ "/ca.crt")

/-- The out-of-cluster candidate list before existence filtering
(src/index.js lines 29-36): `[process.env.KUBECONFIG,
"/etc/kubernetes/admin.conf", path.join(home, ".kube", "config"),
"/root/.kube/config", "/home/administrator/.kube/config"]
.filter(Boolean)`, with `home = process.env.HOME || "/root"`.
`filter(Boolean)` drops an unset or empty `KUBECONFIG` (the literal
paths are non-empty strings, hence truthy); `path.join` on these plain
segments is string concatenation with `/`. -/
def kubeconfigCandidates (env : Env) : List String :=
  let home := match env.home with
    | some h => if h = "" then "/root" else h
    | none => "/root"
  (match jsOrNone env.kubeconfig with
    | some k => [k]
    | none => []) ++
  ["/etc/kubernetes/admin.conf",
   home ++ "/.kube/config",
   "/root/.kube/config",
   "/home/administrator/.kube/config"]

/-- `loadKubeConfigRobust` (src/index.js lines 14-46): in-cluster if the
service host marker is truthy and both service-account files exist;
otherwise the first existing file among the candidates
(`.filter(p => fs.existsSync(p))`, then `candidates[0]`); otherwise
`kc.loadFromDefault()`.  Total by construction — no branch of the
source throws, so the loader always yields some configuration. -/
def loadKubeConfigRobust (env : Env) (fs : String → Bool) : KubeConfigSource :=
  if inClusterCheck env fs then
    .fromCluster
  else
    match ((kubeconfigCandidates env).filter fs).head? with
    | some p => .fromFile p
    | none => .fromDefault

/-! ## Theorems -/

/-- Claim C1: in every success envelope shaped by `sendList`, `count`
equals the length of `items`; when the upstream body carries no `items`
field (or no body at all), the envelope has `count = 0` and an empty
`items` sequence. -/
theorem sendList_count_eq_length {α : Type} (resp : ApiResp α) :
    (sendList resp).count = (sendList resp).items.length ∧
    (resp.body.bind ListBody.items = none →
      (sendList resp).count = 0 ∧ (sendList resp).items = []) := by
  refine ⟨rfl, fun h => ?_⟩
  cases hb : resp.body with
  | none => simp [sendList, hb]
  | some b =>
    rw [hb] at h
    simp only [Option.some_bind] at h
    simp [sendList, hb, h]

/-- Witness for C1: a body with no `items` field yields `count = 0` and
empty `items`. -/
theorem sendList_count_eq_length_witness :
    (sendList ({ body := some { items := none, metadata := none } } : ApiResp Nat)).count = 0 ∧
    (sendList ({ body := some { items := none, metadata := none } } : ApiResp Nat)).items = [] :=
  (sendList_count_eq_length _).2 rfl

/-- Claim C9: when the upstream response carries an `items` array, the
envelope's `items` are exactly that array — same elements in the same
order, no filtering, no projection — and `count` is its length. -/
theorem sendList_items_passthrough {α : Type} (resp : ApiResp α) (b : ListBody α) (l : List α)
    (hb : resp.body = some b) (hi : b.items = some l) :
    (sendList resp).items = l ∧ (sendList resp).count = l.length := by
  simp [sendList, hb, hi]

/-- Witness for C9: a three-element upstream list is relayed verbatim. -/
theorem sendList_items_passthrough_witness :
    (sendList ({ body := some { items := some [3, 1, 2], metadata := none } } : ApiResp Nat)).items
        = [3, 1, 2] ∧
    (sendList ({ body := some { items := some [3, 1, 2], metadata := none } } : ApiResp Nat)).count
        = 3 :=
  sendList_items_passthrough _ _ _ rfl rfl

/-- Counterexample to claim C3 as stated: an upstream response whose
metadata `continue` field is present and equal to the empty string is
not relayed verbatim — `body.metadata?.continue || null` coalesces the
falsy `""` to `null`, so the envelope's `continue` is `none`, not
`some ""`. -/
theorem sendList_continue_empty_not_verbatim :
    (sendList ({ body := some { items := some ([] : List Nat),
                                metadata := some { continueTok := some "",
                                                   resourceVersion := none } } } : ApiResp Nat)).continueTok
      = none ∧
    (sendList ({ body := some { items := some ([] : List Nat),
                                metadata := some { continueTok := some "",
                                                   resourceVersion := none } } } : ApiResp Nat)).continueTok
      ≠ some "" :=
  ⟨rfl, by decide⟩

/-- Helper: the envelope's `continue` field is the falsy-coalesced
upstream `metadata.continue`. -/
theorem sendList_continueTok_eq {α : Type} (resp : ApiResp α) :
    (sendList resp).continueTok
      = jsOrNone ((resp.body.bind ListBody.metadata).bind ListMeta.continueTok) := by
  cases resp with
  | mk body => cases body <;> rfl

/-- Helper: the envelope's `resourceVersion` field is the falsy-coalesced
upstream `metadata.resourceVersion`. -/
theorem sendList_resourceVersion_eq {α : Type} (resp : ApiResp α) :
    (sendList resp).resourceVersion
      = jsOrNone ((resp.body.bind ListBody.metadata).bind ListMeta.resourceVersion) := by
  cases resp with
  | mk body => cases body <;> rfl

/-- Claim C3, amended: the envelope's `continue` and `resourceVersion`
are `null` when the corresponding upstream metadata field is absent *or
is the empty string*, and equal the upstream value verbatim when it is
present and non-empty. -/
theorem sendList_meta_passthrough {α : Type} (resp : ApiResp α) :
    ((resp.body.bind ListBody.metadata).bind ListMeta.continueTok = none ∨
        (resp.body.bind ListBody.metadata).bind ListMeta.continueTok = some "" →
      (sendList resp).continueTok = none) ∧
    (∀ s, (resp.body.bind ListBody.metadata).bind ListMeta.continueTok = some s → s ≠ "" →
      (sendList resp).continueTok = some s) ∧
    ((resp.body.bind ListBody.metadata).bind ListMeta.resourceVersion = none ∨
        (resp.body.bind ListBody.metadata).bind ListMeta.resourceVersion = some "" →
      (sendList resp).resourceVersion = none) ∧
    (∀ s, (resp.body.bind ListBody.metadata).bind ListMeta.resourceVersion = some s → s ≠ "" →
      (sendList resp).resourceVersion = some s) := by
  refine ⟨fun h => ?_, fun s hs hne => ?_, fun h => ?_, fun s hs hne => ?_⟩
  · rcases h with h | h <;> rw [sendList_continueTok_eq, h] <;> simp [jsOrNone]
  · rw [sendList_continueTok_eq, hs]; simp [jsOrNone, hne]
  · rcases h with h | h <;> rw [sendList_resourceVersion_eq, h] <;> simp [jsOrNone]
  · rw [sendList_resourceVersion_eq, hs]; simp [jsOrNone, hne]

/-- Witness for the amended C3: a non-empty `continue` token is relayed
verbatim, an absent `resourceVersion` becomes `null`. -/
theorem sendList_meta_passthrough_witness :
    (sendList ({ body := some { items := some [7],
                                metadata := some { continueTok := some "tok1",
                                                   resourceVersion := none } } } : ApiResp Nat)).continueTok
      = some "tok1" ∧
    (sendList ({ body := some { items := some [7],
                                metadata := some { continueTok := some "tok1",
                                                   resourceVersion := none } } } : ApiResp Nat)).resourceVersion
      = none :=
  ⟨(sendList_meta_passthrough _).2.1 "tok1" rfl (by decide),
   (sendList_meta_passthrough _).2.2.1 (Or.inl rfl)⟩

/-- Claim C2: on every list route, an absent or empty `namespace` query
parameter makes the handler invoke the cluster-wide list variant, and a
present non-empty `namespace` makes every route that has a namespaced
variant invoke it with exactly that namespace value.  (`/api/namespaces`
and `/api/nodes` have no namespaced variant — their resources are
cluster-scoped — which the second clause reflects via
`hasNamespacedVariant`.) -/
theorem listRoute_dispatch (k : Kind) (toNum : String → JsNum) (q : Query) :
    ((q.namespace? = none ∨ q.namespace? = some "") →
      handleListRoute k toNum q = CallTarget.clusterWide) ∧
    (∀ ns, q.namespace? = some ns → ns ≠ "" → hasNamespacedVariant k = true →
      handleListRoute k toNum q = CallTarget.namespaced ns) := by
  constructor
  · intro h
    have hn : jsOrNone q.namespace? = none := by
      rcases h with h | h <;> simp [jsOrNone, h]
    cases k <;> simp [handleListRoute, routeCall, dispatchOnNamespace, parseListParams, hn]
  · intro ns hs hne hv
    have hn : jsOrNone q.namespace? = some ns := by simp [jsOrNone, hs, hne]
    cases k <;>
      simp_all [handleListRoute, routeCall, dispatchOnNamespace, parseListParams,
                hasNamespacedVariant]

/-- Witness for C2: `GET /api/pods?namespace=kube-system` invokes the
namespaced pod list for `kube-system`. -/
theorem listRoute_dispatch_witness :
    handleListRoute Kind.pods (fun _ => JsNum.nan) { namespace? := some "kube-system" } =
      CallTarget.namespaced "kube-system" :=
  (listRoute_dispatch Kind.pods (fun _ => JsNum.nan) { namespace? := some "kube-system" }).2
    "kube-system" rfl (by decide) rfl

/-- Counterexample to claim C4 as stated: an upstream error carrying an
embedded response with status code 404 and the (falsy) JSON body `null`
does not have that body relayed into `details` — the source's
`err?.response?.body || {message: ...}` replaces any falsy body with the
message fallback object. -/
theorem sendError_falsy_body_not_verbatim :
    (sendError (some { response := some { statusCode := some 404, body := some Json.null },
                       message := some "boom" })).status = 404 ∧
    (sendError (some { response := some { statusCode := some 404, body := some Json.null },
                       message := some "boom" })).body.details
      = Json.obj [("message", Json.str "boom")] ∧
    (sendError (some { response := some { statusCode := some 404, body := some Json.null },
                       message := some "boom" })).body.details ≠ Json.null :=
  ⟨rfl, rfl, fun h => Json.noConfusion h⟩

/-- Claim C4, amended: when the upstream error carries an embedded
response with a (nonzero) HTTP status code and a *truthy* body, the
facade's response status equals that status code and the envelope is
`{error: "K8S_API_ERROR", status, details}` with `details` exactly the
embedded body; a falsy embedded body (JSON `null`, `false`, `0`, `""`)
instead falls back to the `{message: ...}` object. -/
theorem sendError_upstream_response (e : JsError) (r : ErrResponse) (c : Nat) (b : Json)
    (hr : e.response = some r) (hc : r.statusCode = some c) (hc0 : c ≠ 0)
    (hb : r.body = some b) (ht : b.truthy = true) :
    sendError (some e) =
      { status := c, body := { error := "K8S_API_ERROR", status := c, details := b } } := by
  simp [sendError, hr, hc, hc0, hb, ht]

/-- Witness for the amended C4: a 403 with a truthy JSON object body is
relayed with the same status and the body verbatim in `details`. -/
theorem sendError_upstream_response_witness :
    sendError (some { response := some { statusCode := some 403,
                                         body := some (Json.obj [("message", Json.str "Forbidden")]) },
                      message := some "HTTP request failed" }) =
      { status := 403,
        body := { error := "K8S_API_ERROR", status := 403,
                  details := Json.obj [("message", Json.str "Forbidden")] } } :=
  sendError_upstream_response _ _ 403 _ rfl rfl (by decide) rfl rfl

/-- Counterexample to claim C5 as stated: an error with no embedded
response whose local message is the *empty string* does not yield
`details = {message: ""}` — `err?.message || "Unknown error"` coalesces
the falsy empty message to the `"Unknown error"` fallback. -/
theorem sendError_empty_message_fallback :
    (sendError (some { response := none, message := some "" })).status = 500 ∧
    (sendError (some { response := none, message := some "" })).body.details
      = Json.obj [("message", Json.str "Unknown error")] ∧
    (sendError (some { response := none, message := some "" })).body.details
      ≠ Json.obj [("message", Json.str "")] :=
  ⟨rfl, rfl, by simp [sendError, errMessage]⟩

/-- Claim C5, amended: on an upstream failure whose error carries no
embedded HTTP response, the facade's status is 500 and `details` is
`{message: m}` with `m` the local error's message when that message is
non-empty, and `{message: "Unknown error"}` when the message is absent
or empty. -/
theorem sendError_local_failure (e : JsError) (h : e.response = none) :
    (sendError (some e)).status = 500 ∧
    (∀ m, e.message = some m → m ≠ "" →
      (sendError (some e)).body.details = Json.obj [("message", Json.str m)]) ∧
    ((e.message = none ∨ e.message = some "") →
      (sendError (some e)).body.details = Json.obj [("message", Json.str "Unknown error")]) := by
  refine ⟨?_, fun m hm hne => ?_, fun hm => ?_⟩
  · simp [sendError, h]
  · simp [sendError, errMessage, h, hm, hne]
  · rcases hm with hm | hm <;> simp [sendError, errMessage, h, hm]

/-- Witness for the amended C5: a connection-refused style local error
becomes a 500 with its message wrapped in `details`. -/
theorem sendError_local_failure_witness :
    (sendError (some { response := none, message := some "connect ECONNREFUSED" })).status = 500 ∧
    (sendError (some { response := none, message := some "connect ECONNREFUSED" })).body.details
      = Json.obj [("message", Json.str "connect ECONNREFUSED")] :=
  ⟨(sendError_local_failure _ rfl).1,
   (sendError_local_failure _ rfl).2.1 _ rfl (by decide)⟩

/-- Claim C6: `/api/health` responds `{ok: true}` with HTTP status 200
regardless of any ambient state — the handler reads nothing, so the
result is the same constant for every state of every type. -/
theorem handleHealth_always_ok (σ : Type) (s : σ) :
    handleHealth s = { status := 200, body := { ok := true } } :=
  rfl

/-- Witness for C6 at a concrete state. -/
theorem handleHealth_always_ok_witness :
    handleHealth (0 : Nat) = { status := 200, body := { ok := true } } :=
  handleHealth_always_ok Nat 0

/-- Helper: the head of a filtered list is the first element satisfying
the filter. -/
theorem filter_head?_eq_find? {α : Type} (p : α → Bool) (l : List α) :
    (l.filter p).head? = l.find? p := by
  induction l with
  | nil => rfl
  | cons a t ih => cases h : p a <;> simp [List.filter_cons, List.find?, h, ih]

/-- Claim C7: the config loader's precedence.  It returns the in-cluster
configuration exactly when the `KUBERNETES_SERVICE_HOST` marker is
truthy and both service-account files exist; otherwise it loads the
first existing file among the `KUBECONFIG` override followed by the
well-known paths; otherwise it falls back to default discovery.  The
last conjunct records that it always yields some configuration — the
result type has no error case because no branch of the source throws. -/
theorem loadKubeConfigRobust_precedence (env : Env) (fs : String → Bool) :
    (loadKubeConfigRobust env fs = KubeConfigSource.fromCluster ↔
      inClusterCheck env fs = true) ∧
    (∀ p, inClusterCheck env fs = false → (kubeconfigCandidates env).find? fs = some p →
      loadKubeConfigRobust env fs = KubeConfigSource.fromFile p) ∧
    (inClusterCheck env fs = false → (kubeconfigCandidates env).find? fs = none →
      loadKubeConfigRobust env fs = KubeConfigSource.fromDefault) ∧
    (loadKubeConfigRobust env fs = KubeConfigSource.fromCluster ∨
      (∃ p, loadKubeConfigRobust env fs = KubeConfigSource.fromFile p) ∨
      loadKubeConfigRobust env fs = KubeConfigSource.fromDefault) := by
  have hff := filter_head?_eq_find? fs (kubeconfigCandidates env)
  cases h : inClusterCheck env fs with
  | true =>
    refine ⟨by simp [loadKubeConfigRobust, h], ?_, ?_,
            Or.inl (by simp [loadKubeConfigRobust, h])⟩
    · intro p h0 _
      exact Bool.noConfusion h0
    · intro h0 _
      exact Bool.noConfusion h0
  | false =>
    have hl : loadKubeConfigRobust env fs =
        (match (kubeconfigCandidates env).find? fs with
          | some p => KubeConfigSource.fromFile p
          | none => KubeConfigSource.fromDefault) := by
      unfold loadKubeConfigRobust
      rw [if_neg (by simp [h]), hff]
    cases hc : (kubeconfigCandidates env).find? fs with
    | some p =>
      rw [hc] at hl
      refine ⟨by simp [hl], ?_, ?_, Or.inr (Or.inl ⟨p, hl⟩)⟩
      · intro q _ hq
        injection hq with hq
        rw [← hq]
        exact hl
      · intro _ hq
        exact Option.noConfusion hq
    | none =>
      rw [hc] at hl
      refine ⟨by simp [hl], ?_, fun _ _ => hl, Or.inr (Or.inr hl)⟩
      · intro q _ hq
        exact Option.noConfusion hq

/-- Witness for C7: with the marker set and both service-account files
present, the loader picks the in-cluster configuration. -/
theorem loadKubeConfigRobust_precedence_witness :
    loadKubeConfigRobust { kubernetesServiceHost := some "10.96.0.1", kubeconfig := none,
                           home := none } (fun _ => true) = KubeConfigSource.fromCluster :=
  (loadKubeConfigRobust_precedence _ _).1.mpr (by decide)

/-- Claim C8: a non-empty `limit` query parameter is converted with the
host's string-to-number primitive and handed downstream with no
validation — whatever the conversion yields (a NaN-equivalent included)
becomes the normalized `limit`, with no rejection path. -/
theorem parseListParams_limit_unvalidated (toNum : String → JsNum) (q : Query) (s : String)
    (hs : q.limit = some s) (hne : s ≠ "") :
    (parseListParams toNum q).limit = some (toNum s) := by
  simp [parseListParams, hs, hne]

/-- Witness for C8: a non-numeric `limit=abc` under a conversion that
yields NaN is passed through as NaN, unrejected. -/
theorem parseListParams_limit_unvalidated_witness :
    (parseListParams (fun _ => JsNum.nan) { limit := some "abc" }).limit = some JsNum.nan :=
  parseListParams_limit_unvalidated (fun _ => JsNum.nan) { limit := some "abc" } "abc"
    rfl (by decide)

/-- Claim C10: in every error response produced by `sendError`, the
numeric `status` field inside the JSON envelope equals the HTTP status
code of the response itself — both are the same local value, in the
upstream-status case and the 500 fallback alike. -/
theorem sendError_status_consistent (err : Option JsError) :
    (sendError err).status = (sendError err).body.status :=
  rfl

/-- Witness for C10 at a concrete upstream error. -/
theorem sendError_status_consistent_witness :
    (sendError (some { response := some { statusCode := some 404, body := none },
                       message := none })).status =
      (sendError (some { response := some { statusCode := some 404, body := none },
                         message := none })).body.status :=
  sendError_status_consistent _
